import Mathlib

/-!
Verification of the container dispatcher of the fmri-preproc-toolkit
repository.

The embedding covers `src/utils/dispatch.py` (`dispatch_container` and its
inner worker `run_container`), the poll-based dispatchers
`src/fmriprep/fmriprep_dispatch.py` and `src/xcp_d/xcp_d_dispatch.py`
(`dispatch_fmriprep_container` / `dispatch_xcp_d_container`), and the call
site of `dispatch_container` in `src/heudiconv/heudiconv_dispatch.py`
(`heudiconv_main`).

Modelling conventions:
* Python exceptions are `Except String`; a step that raises propagates,
  exactly as in a Lean `do` block over `Except`.
* The outcome of each docker primitive (builder call, `containers.run`,
  `wait`, `logs`, `remove`) is an input of the model, since those are
  interactions with the outside world.
* The thread pool and `as_completed` are modelled by handing the
  aggregation loop the completed futures in an arbitrary order: theorems
  take the completion order as a list that is a permutation of the per-job
  outcomes.
* Machine-level concurrency (how many containers run at an instant) is
  modelled by explicit transition systems whose steps mirror the admission
  rules of the two dispatcher variants.
-/

deriving instance DecidableEq for Except

namespace FmriPreproc

/-! ## Worker model: `run_container` (src/utils/dispatch.py, lines 45-82) -/

/-- The dictionary returned by `docker_config_action`; the four keys read
by `run_container` (lines 48-53, 69). -/
structure DockerConfig where
  docker_log_file : String
  binds_dict : List (String × String)
  container_args : List String
  msg_after_start : String
deriving DecidableEq, Repr

/-- The results of the external interactions a single worker performs, in
the order `run_container` performs them: the `docker_config_action`
builder call (line 47), `client.containers.run` returning a container
with a name (lines 60-66), `container.wait()["StatusCode"]` (line 72),
`container.logs(timestamps=True)` (line 78), `container.remove()`
(line 80).  `Except.error` means the Python call raised. -/
structure WorkerOps where
  docker_config_action : Except String DockerConfig
  containers_run : Except String String
  wait : Except String Int
  logs : Except String String
  remove : Except String Unit
deriving DecidableEq, Repr

/-- `run_container` (src/utils/dispatch.py, lines 45-82): builder call,
container start, wait, log fetch and file write, removal, then return the
exit code.  None of the steps is guarded by a `try`/`except`, so a raise
anywhere propagates out of the worker. -/
def run_container (ops : WorkerOps) : Except String Int := do
  let _docker_config ← ops.docker_config_action
  let _container_name ← ops.containers_run
  let exit_code ← ops.wait
  let _log_bytes ← ops.logs
  let _ ← ops.remove
  pure exit_code

/-- `True` exactly when the worker returned an exit code
(`future.result()` does not raise). -/
def outcomeOk : Except String Int → Bool
  | .ok _ => true
  | .error _ => false

/-! ## Aggregation loop (src/utils/dispatch.py, lines 84-104) -/

/-- The Python dict update at lines 99-102: increment the (unique) entry
for `code`, or append a new entry `(code, 1)` in insertion order. -/
def bumpCounter : List (Int × Nat) → Int → List (Int × Nat)
  | [], code => [(code, 1)]
  | (k, v) :: rest, code =>
    if k = code then (k, v + 1) :: rest else (k, v) :: bumpCounter rest code

/-- The two accumulators of the aggregation loop: `exit_code_counter`
(line 84, a dict modelled as an insertion-ordered association list with
unique keys) and `exit_code_infos` (line 85). -/
structure AggState (α : Type) where
  exit_code_counter : List (Int × Nat)
  exit_code_infos : List (α × Int)
deriving DecidableEq, Repr

/-- One iteration of `for future in as_completed(futures)` (lines 92-104)
on the completed future `(index, config, outcome)`: on `.ok exit_code` the
try-branch appends to `exit_code_infos` and bumps `exit_code_counter`; on
`.error` the except-branch only logs, leaving both accumulators
unchanged. -/
def aggStep {α : Type} (s : AggState α) (fut : Nat × α × Except String Int) :
    AggState α :=
  match fut.2.2 with
  | .ok exit_code =>
    { exit_code_counter := bumpCounter s.exit_code_counter exit_code
      exit_code_infos := s.exit_code_infos ++ [(fut.2.1, exit_code)] }
  | .error _ => s

/-- Sum of the counts held in `exit_code_counter`. -/
def counterSum (counter : List (Int × Nat)) : Nat :=
  (counter.map Prod.snd).sum

/-! ## Log-path computation (src/utils/dispatch.py, lines 18-23) -/

/-- Python `str.replace` for a one-character pattern and a one-character
replacement substitutes character-wise. -/
def replaceChar (s : String) (a b : Char) : String :=
  ⟨s.data.map fun c => if c = a then b else c⟩

/-- Line 20: `image_name.replace("/", "-").replace(":", "-")`. -/
def filteredName (image_name : String) : String :=
  replaceChar (replaceChar image_name '/' '-') ':' '-'

/-- Does the string start with the path separator? -/
def headIsSlash (s : String) : Bool :=
  match s.data with
  | [] => false
  | c :: _ => c = '/'

/-- Does the string end with the path separator? -/
def lastIsSlash (s : String) : Bool :=
  match s.data.getLast? with
  | some c => c = '/'
  | none => false

/-- `os.path.join` for two components (POSIX rules): an absolute second
component wins; otherwise the parts are joined with `/` unless the first
is empty or already ends in `/`. -/
def ospJoin (a b : String) : String :=
  if headIsSlash b then b
  else if a.data.isEmpty || lastIsSlash a then a ++ b
  else a ++ "/" ++ b

/-- Lines 21-23: the dispatch log file path
`os.path.join(dispatch_log_path, f"dispatch_{filtered_name}_{timestamp}.log")`. -/
def dispatch_log_file (dispatch_log_path image_name timestamp : String) :
    String :=
  ospJoin dispatch_log_path
    ("dispatch_" ++ filteredName image_name ++ "_" ++ timestamp ++ ".log")

/-! ## `dispatch_container` (src/utils/dispatch.py, lines 9-111) -/

/-- Observable events of one dispatch run, in order: the opening log line
(line 43), the line after all submissions (line 91), the processing of
each completed future in completion order (lines 92-104; the `.error`
case is the logged exception of line 104), and the closing report
(lines 106-110). -/
inductive Event (α : Type) where
  | startDispatch (image_name : String) (count : Nat)
  | allSubmitted
  | jobTerminal (index : Nat) (config : α) (outcome : Except String Int)
  | finalReport (exit_code_infos : List (α × Int))
      (exit_code_counter : List (Int × Nat))
deriving DecidableEq, Repr

/-- The summary shape named `DispatchSummary` by the design document:
total job count, exit-code histogram, ordered per-job results. -/
structure DispatchSummary (α : Type) where
  totalJobs : Nat
  histogram : List (Int × Nat)
  results : List (α × Int)
deriving DecidableEq, Repr

/-- Everything one call of `dispatch_container` produces: the dispatch
log file path, the event trace, the two accumulators at the end of the
loop, and the Python return value. -/
structure DispatchRun (α : Type) where
  dispatch_log_file : String
  trace : List (Event α)
  exit_code_counter : List (Int × Nat)
  exit_code_infos : List (α × Int)
  ret : Option (DispatchSummary α)
deriving DecidableEq, Repr

/-- The futures dictionary of lines 87-90: `executor.submit(run_container,
index, config, ...)` for `index, config in enumerate(configs)`; each
future resolves to the worker's outcome under the per-job interaction
results `ops index`. -/
def jobOutcomes {α : Type} (configs : List α) (ops : Nat → WorkerOps) :
    List (Nat × α × Except String Int) :=
  configs.enum.map fun p => (p.1, p.2, run_container (ops p.1))

/-- `dispatch_container` (src/utils/dispatch.py, lines 9-111), with the
run start time `timestamp` (line 18) and the `as_completed` completion
order `completed` supplied as inputs.  The function body ends at the
closing `log(...)` with no `return` statement, so its Python value is
`None`: the `ret` field is `none`. -/
def dispatch_container {α : Type} (image_name dispatch_log_path timestamp :
    String) (configs : List α)
    (completed : List (Nat × α × Except String Int)) : DispatchRun α :=
  let agg := completed.foldl aggStep
    { exit_code_counter := [], exit_code_infos := [] }
  { dispatch_log_file := dispatch_log_file dispatch_log_path image_name
      timestamp
    trace := Event.startDispatch image_name configs.length ::
      Event.allSubmitted ::
      (completed.map fun fut => Event.jobTerminal fut.1 fut.2.1 fut.2.2) ++
      [Event.finalReport agg.exit_code_infos agg.exit_code_counter]
    exit_code_counter := agg.exit_code_counter
    exit_code_infos := agg.exit_code_infos
    ret := none }

/-! ## Bounded concurrency: pool-based dispatcher
(src/utils/dispatch.py, lines 86-90)

`ThreadPoolExecutor(max_workers=max_containers)` runs at most
`max_containers` worker threads; each worker executes `run_container`
synchronously, so a submitted job is started only when one of the `N`
workers is free.  The executor's admission discipline is embedded as a
step relation on the counts of pending, running and finished jobs. -/

/-- Job counts of a pool-based dispatch run: submitted-but-unstarted,
started-but-unfinished, finished. -/
structure PoolState where
  pending : Nat
  running : Nat
  finished : Nat
deriving DecidableEq, Repr

/-- Steps of the pool: a free worker (fewer than `N` busy) picks up a
pending job; a busy worker finishes its job (successfully or by
raising). -/
inductive PoolStep (N : Nat) : PoolState → PoolState → Prop
  | launch (p r f : Nat) (h : r < N) :
      PoolStep N ⟨p + 1, r, f⟩ ⟨p, r + 1, f⟩
  | finish (p r f : Nat) :
      PoolStep N ⟨p, r + 1, f⟩ ⟨p, r, f + 1⟩

/-- States reachable by the pool dispatcher started on `jobs` submitted
jobs. -/
inductive PoolReachable (N jobs : Nat) : PoolState → Prop
  | init : PoolReachable N jobs ⟨jobs, 0, 0⟩
  | step {s s' : PoolState} : PoolReachable N jobs s → PoolStep N s s' →
      PoolReachable N jobs s'

/-! ## Bounded concurrency: poll-based dispatchers
(src/fmriprep/fmriprep_dispatch.py lines 180-200,
src/xcp_d/xcp_d_dispatch.py lines 110-130)

The dispatch loop launches the next subject's container only after
observing `running_containers < max_containers`, where
`running_containers` is the line count of `docker ps -q`: the number of
ALL containers running on the host, the dispatcher's own and unrelated
ones alike.  Containers started by the dispatcher exit on their own
schedule; unrelated containers appear and disappear arbitrarily. -/

/-- Poll-loop state: subjects not yet launched, containers this
dispatcher started that are still running, unrelated containers running
on the same host. -/
structure PollState where
  queued : Nat
  own : Nat
  unrelated : Nat
deriving DecidableEq, Repr

/-- The output of `docker ps -q`, one container id per line, for every
running container on the host — the dispatcher's own and unrelated
alike. -/
def docker_ps_q (own_ids unrelated_ids : List String) : List Char :=
  (own_ids ++ unrelated_ids).foldr (fun id acc => id.data ++ '\x0A' :: acc) []

/-- fmriprep_dispatch.py lines 183-185 (and xcp_d_dispatch.py
lines 113-115): `running_containers` is the newline count of the
`docker ps -q` output. -/
def running_containers (own_ids unrelated_ids : List String) : Nat :=
  (docker_ps_q own_ids unrelated_ids).count '\x0A'

/-- Line 188 / 118: the loop starts a new container exactly when the
host-wide count is below `max_containers`. -/
def admits_new_container (max_containers : Nat)
    (own_ids unrelated_ids : List String) : Bool :=
  running_containers own_ids unrelated_ids < max_containers

/-- Steps of the poll dispatcher: launch the next subject after the
`docker ps` check passes; one of its own containers exits; an unrelated
container starts or exits. -/
inductive PollStep (N : Nat) : PollState → PollState → Prop
  | launch (q own unrelated : Nat) (h : own + unrelated < N) :
      PollStep N ⟨q + 1, own, unrelated⟩ ⟨q, own + 1, unrelated⟩
  | ownExit (q own unrelated : Nat) :
      PollStep N ⟨q, own + 1, unrelated⟩ ⟨q, own, unrelated⟩
  | unrelatedStart (q own unrelated : Nat) :
      PollStep N ⟨q, own, unrelated⟩ ⟨q, own, unrelated + 1⟩
  | unrelatedExit (q own unrelated : Nat) :
      PollStep N ⟨q, own, unrelated + 1⟩ ⟨q, own, unrelated⟩

/-- States reachable by the poll dispatcher started on `jobs` subjects
with no own container running and `u` unrelated containers on the
host. -/
inductive PollReachable (N jobs u : Nat) : PollState → Prop
  | init : PollReachable N jobs u ⟨jobs, 0, u⟩
  | step {s s' : PollState} : PollReachable N jobs u s → PollStep N s s' →
      PollReachable N jobs u s'

/-! ## Closing report of the poll-based dispatcher
(src/fmriprep/fmriprep_dispatch.py, lines 154-201)

After the `for subject_id in subject_list` loop has launched its last
container, the main thread falls through to the closing
`log_message(...)` of line 201 immediately: the `wait_container` threads
spawned at lines 192-195 are never joined, so containers launched by the
run may still be blocked in `docker wait` when the closing report is
written. -/

/-- State of one `dispatch_fmriprep_container` run: subjects not yet
launched, containers this run started that are still running, unrelated
host containers, and whether the closing report of line 201 has been
written. -/
structure FmriprepState where
  queued : Nat
  own : Nat
  unrelated : Nat
  reported : Bool
deriving DecidableEq, Repr

/-- Steps of `dispatch_fmriprep_container`: the loop body launches the
next subject once the host-wide `docker ps` count is below the limit
(lines 181-196); a `wait_container` thread sees its container exit
(lines 141-143); unrelated containers come and go; and once the loop has
no subject left the main thread writes the closing report (line 201)
without waiting for the launched containers to exit. -/
inductive FmriprepStep (N : Nat) : FmriprepState → FmriprepState → Prop
  | launch (q own u : Nat) (h : own + u < N) :
      FmriprepStep N ⟨q + 1, own, u, false⟩ ⟨q, own + 1, u, false⟩
  | ownExit (q own u : Nat) (r : Bool) :
      FmriprepStep N ⟨q, own + 1, u, r⟩ ⟨q, own, u, r⟩
  | unrelatedStart (q own u : Nat) (r : Bool) :
      FmriprepStep N ⟨q, own, u, r⟩ ⟨q, own, u + 1, r⟩
  | unrelatedExit (q own u : Nat) (r : Bool) :
      FmriprepStep N ⟨q, own, u + 1, r⟩ ⟨q, own, u, r⟩
  | closingReport (own u : Nat) :
      FmriprepStep N ⟨0, own, u, false⟩ ⟨0, own, u, true⟩

/-- Runs of `dispatch_fmriprep_container` on `jobs` subjects, starting
with no own container running and `u` unrelated containers on the
host. -/
inductive FmriprepReachable (N jobs u : Nat) : FmriprepState → Prop
  | init : FmriprepReachable N jobs u ⟨jobs, 0, u, false⟩
  | step {s s' : FmriprepState} : FmriprepReachable N jobs u s →
      FmriprepStep N s s' → FmriprepReachable N jobs u s'

/-! ## Call binding of `dispatch_container` in heudiconv_main
(src/heudiconv/heudiconv_dispatch.py, lines 147-155) -/

/-- The parameter names of `def dispatch_container(...)`
(src/utils/dispatch.py, lines 9-17); the signature has no `**kwargs`. -/
def dispatch_container_params : List String :=
  ["image_name", "dispatch_log_path", "docker_log_path", "max_containers",
   "configs", "docker_config_action", "workdirs_path"]

/-- The keyword arguments `heudiconv_main` passes to `dispatch_container`
(src/heudiconv/heudiconv_dispatch.py, lines 147-155). -/
def heudiconv_dispatch_kwargs : List String :=
  ["image_name", "dispatch_log_path", "docker_log_path", "max_containers",
   "interval", "configs", "docker_config_action"]

/-- CPython call binding for a signature without `**kwargs`: the call
raises `TypeError` (before the callee body runs) unless every keyword
argument names a parameter. -/
def call_binds (params kwargs : List String) : Bool :=
  kwargs.all fun k => params.contains k

/-- The keyword arguments a call would be rejected for. -/
def unexpected_kwargs (params kwargs : List String) : List String :=
  kwargs.filter fun k => !params.contains k

/-! ## Concrete fixtures used by witnesses and counterexamples -/

/-- A worker whose every external interaction succeeds and whose
container exits with `code`. -/
def okOps (code : Int) : WorkerOps :=
  { docker_config_action := .ok ⟨"job.log", [("/h", "/c")], ["arg"], "msg"⟩
    containers_run := .ok "container0"
    wait := .ok code
    logs := .ok "captured output"
    remove := .ok () }

/-- A worker whose `docker_config_action` builder call raises. -/
def builderFailOps : WorkerOps :=
  { okOps 0 with docker_config_action := .error "builder boom" }

/-- A worker whose container exits with code 0 but whose
`container.logs` call raises afterwards. -/
def logFetchFailOps : WorkerOps :=
  { okOps 0 with logs := .error "log fetch failed" }

/-- A worker whose container exits with code 0 and whose log fetch
succeeds, but whose `container.remove` call raises. -/
def removeFailOps : WorkerOps :=
  { okOps 0 with remove := .error "removal failed" }

/-- The per-job result entry the try-branch of the aggregation loop
appends for a completed future, if any: `.ok` outcomes produce a
`(config, exit_code)` pair, `.error` outcomes produce nothing. -/
def okEntry {α : Type} (fut : Nat × α × Except String Int) :
    Option (α × Int) :=
  match fut.2.2 with
  | .ok v => some (fut.2.1, v)
  | .error _ => none

/-! ## Helper lemmas about the aggregation loop -/

theorem counterSum_bump (c : List (Int × Nat)) (code : Int) :
    counterSum (bumpCounter c code) = counterSum c + 1 := by
  induction c with
  | nil => simp [bumpCounter, counterSum]
  | cons p rest ih =>
    obtain ⟨k, v⟩ := p
    by_cases h : k = code
    · simp [bumpCounter, h, counterSum]
      omega
    · simp only [bumpCounter, if_neg h, counterSum, List.map_cons,
        List.sum_cons] at ih ⊢
      omega

theorem agg_infos_eq {α : Type} (l : List (Nat × α × Except String Int))
    (init : AggState α) :
    (l.foldl aggStep init).exit_code_infos
      = init.exit_code_infos ++ l.filterMap okEntry := by
  induction l generalizing init with
  | nil => simp
  | cons fut rest ih =>
    obtain ⟨i, c, o⟩ := fut
    cases o with
    | ok v =>
      simp only [List.foldl_cons, ih, aggStep, okEntry, List.filterMap_cons]
      simp
    | error e =>
      simp only [List.foldl_cons, ih, aggStep, okEntry, List.filterMap_cons]

theorem agg_counterSum_eq {α : Type} (l : List (Nat × α × Except String Int))
    (init : AggState α) :
    counterSum (l.foldl aggStep init).exit_code_counter
      = counterSum init.exit_code_counter
        + l.countP (fun fut => outcomeOk fut.2.2) := by
  induction l generalizing init with
  | nil => simp
  | cons fut rest ih =>
    obtain ⟨i, c, o⟩ := fut
    cases o with
    | ok v =>
      simp [List.foldl_cons, ih, aggStep, List.countP_cons, outcomeOk,
        counterSum_bump]
      omega
    | error e =>
      simp [List.foldl_cons, ih, aggStep, List.countP_cons, outcomeOk]

theorem countP_add_countP_neg {β : Type} (p : β → Bool) (l : List β) :
    l.countP p + l.countP (fun a => !(p a)) = l.length := by
  induction l with
  | nil => simp
  | cons a rest ih =>
    by_cases h : p a <;> simp [List.countP_cons, h] <;> omega

theorem length_filterMap_okEntry {α : Type}
    (l : List (Nat × α × Except String Int)) :
    (l.filterMap okEntry).length = l.countP (fun fut => outcomeOk fut.2.2) := by
  induction l with
  | nil => simp
  | cons fut rest ih =>
    obtain ⟨i, c, o⟩ := fut
    cases o with
    | ok v => simp [List.filterMap_cons, okEntry, List.countP_cons,
        outcomeOk, ih]
    | error e => simp [List.filterMap_cons, okEntry, List.countP_cons,
        outcomeOk, ih]

theorem jobOutcomes_length {α : Type} (configs : List α)
    (ops : Nat → WorkerOps) :
    (jobOutcomes configs ops).length = configs.length := by
  simp [jobOutcomes]

theorem mem_jobOutcomes {α : Type} (configs : List α) (ops : Nat → WorkerOps)
    (i : Nat) (h : i < configs.length) :
    (i, configs[i], run_container (ops i)) ∈ jobOutcomes configs ops := by
  have hm : (i, configs[i]) ∈ configs.enum :=
    List.mk_mem_enum_iff_getElem?.mpr (List.getElem?_eq_getElem h)
  exact List.mem_map.mpr ⟨(i, configs[i]), hm, rfl⟩

/-! ## Helper lemmas about strings and the log path -/

theorem string_mk_data_eq {s t : String} (h : s.data = t.data) : s = t :=
  congrArg String.mk h

theorem headIsSlash_logname (f ts : String) :
    headIsSlash ("dispatch_" ++ f ++ "_" ++ ts ++ ".log") = false := by
  have h : ("dispatch_" ++ f ++ "_" ++ ts ++ ".log").data
      = 'd' :: ("ispatch_".data ++ f.data ++ "_".data ++ ts.data
          ++ ".log".data) := by
    simp [String.data_append]
  simp [headIsSlash, h]

theorem ospJoin_eq_append (dir rest : String) (h : headIsSlash rest = false) :
    ospJoin dir rest
      = (if dir.data.isEmpty || lastIsSlash dir then dir else dir ++ "/")
          ++ rest := by
  rw [ospJoin, if_neg (by simp [h])]
  by_cases hd : (dir.data.isEmpty || lastIsSlash dir) = true
  · rw [if_pos hd, if_pos hd]
  · rw [if_neg hd, if_neg hd]

theorem dispatch_log_file_timestamp_inj (dir img img' ts ts' : String)
    (hl : ts.length = ts'.length)
    (h : dispatch_log_file dir img ts = dispatch_log_file dir img' ts') :
    ts = ts' := by
  rw [dispatch_log_file, dispatch_log_file,
    ospJoin_eq_append _ _ (headIsSlash_logname _ _),
    ospJoin_eq_append _ _ (headIsSlash_logname _ _)] at h
  have hd := congrArg String.data h
  rw [String.data_append, String.data_append] at hd
  have h2 := List.append_cancel_left hd
  simp only [String.data_append] at h2
  have h3 := List.append_cancel_right h2
  have h4 : ts.data = ts'.data := List.append_inj_right' h3 hl
  exact string_mk_data_eq h4

/-! ## Claim C1 -/

/-- Claim C1, as stated, is false on the code: a job whose worker raises
contributes no entry to `exit_code_infos` (the except-branch of
lines 96-104 only logs), so with one submitted job whose builder raises,
the loop ends with zero result entries instead of one. -/
theorem dispatch_results_missing_for_error :
    (dispatch_container "nipy/heudiconv:latest" "dispatch-logs"
        "2024-01-01_00-00-00" ["cfgA"]
        (jobOutcomes ["cfgA"] fun _ => builderFailOps)).exit_code_infos.length
      = 0
    ∧ (["cfgA"] : List String).length = 1 := by decide

/-- Claim C1 (amended): when `dispatch_container` finishes, the number of
entries in `exit_code_infos` equals the number of jobs whose worker
returned an exit code; jobs whose worker raised contribute no entry, so
the count equals the number of submitted configurations only when no
worker raised. -/
theorem dispatch_results_count_successes {α : Type} (img dlp ts : String)
    (configs : List α) (ops : Nat → WorkerOps)
    (completed : List (Nat × α × Except String Int))
    (h : completed.Perm (jobOutcomes configs ops)) :
    (dispatch_container img dlp ts configs completed).exit_code_infos.length
      = (jobOutcomes configs ops).countP (fun fut => outcomeOk fut.2.2) := by
  simp only [dispatch_container]
  rw [agg_infos_eq]
  simp [length_filterMap_okEntry, h.countP_eq]

/-- Witness for the amended C1: two jobs, the first raising at the
builder, the second exiting 0; exactly one result entry is kept. -/
theorem dispatch_results_count_successes_witness :
    (dispatch_container "img" "logs" "ts" ["cfgA", "cfgB"]
        (jobOutcomes ["cfgA", "cfgB"]
          fun i => if i = 0 then builderFailOps else okOps 0)).exit_code_infos.length
      = (jobOutcomes ["cfgA", "cfgB"]
          (fun i => if i = 0 then builderFailOps else okOps 0)).countP
          (fun fut => outcomeOk fut.2.2)
    ∧ (jobOutcomes ["cfgA", "cfgB"]
          (fun i => if i = 0 then builderFailOps else okOps 0)).countP
          (fun fut => outcomeOk fut.2.2) = 1 :=
  ⟨dispatch_results_count_successes "img" "logs" "ts" ["cfgA", "cfgB"] _ _
      (List.Perm.refl _),
    by decide⟩

/-! ## Claim C2 -/

/-- Claim C2, as stated, is false on the code: `dispatch_container`'s
body ends at the closing log call with no `return` statement, so even on
an input where every job succeeds its Python return value is `None`, not
a `DispatchSummary`. -/
theorem dispatch_returns_no_summary :
    ¬ ∃ s : DispatchSummary String,
      (dispatch_container "nipy/heudiconv:latest" "dispatch-logs"
          "2024-01-01_00-00-00" ["cfgA"]
          (jobOutcomes ["cfgA"] fun _ => okOps 0)).ret = some s := by
  rintro ⟨s, hs⟩
  simp [dispatch_container] at hs

/-- Claim C2 (amended): for every input, `dispatch_container` returns
`None`; the exit-code histogram and the per-job result list are produced
only as a side effect, in the final log report that closes the trace. -/
theorem dispatch_logs_summary_only {α : Type} (img dlp ts : String)
    (configs : List α) (completed : List (Nat × α × Except String Int)) :
    (dispatch_container img dlp ts configs completed).ret = none
    ∧ (dispatch_container img dlp ts configs completed).trace.getLast?
      = some (Event.finalReport
          (dispatch_container img dlp ts configs completed).exit_code_infos
          (dispatch_container img dlp ts configs completed).exit_code_counter) := by
  refine ⟨rfl, ?_⟩
  simp only [dispatch_container]
  exact List.getLast?_concat _

/-! ## Claim C3 -/

/-- Claim C3: after the aggregation loop has processed all submitted
jobs, the sum of the counts in `exit_code_counter` plus the number of
jobs whose worker raised equals the number of submitted
configurations. -/
theorem histogram_sum_accounts_all_jobs {α : Type} (img dlp ts : String)
    (configs : List α) (ops : Nat → WorkerOps)
    (completed : List (Nat × α × Except String Int))
    (h : completed.Perm (jobOutcomes configs ops)) :
    counterSum
        (dispatch_container img dlp ts configs completed).exit_code_counter
      + completed.countP (fun fut => !(outcomeOk fut.2.2))
      = configs.length := by
  simp only [dispatch_container]
  rw [agg_counterSum_eq]
  have h2 := countP_add_countP_neg (fun fut => outcomeOk fut.2.2) completed
  have h3 := h.length_eq
  rw [jobOutcomes_length] at h3
  simp [counterSum] at *
  omega

/-- Witness for C3: two jobs, one raising and one succeeding; the
histogram holds one count and one job raised, accounting for both. -/
theorem histogram_sum_accounts_all_jobs_witness :
    counterSum (dispatch_container "img" "logs" "ts" ["cfgA", "cfgB"]
        (jobOutcomes ["cfgA", "cfgB"]
          fun i => if i = 0 then builderFailOps else okOps 0)).exit_code_counter
      + (jobOutcomes ["cfgA", "cfgB"]
          (fun i => if i = 0 then builderFailOps else okOps 0)).countP
          (fun fut => !(outcomeOk fut.2.2))
      = 2
    ∧ 2 = (["cfgA", "cfgB"] : List String).length :=
  ⟨histogram_sum_accounts_all_jobs "img" "logs" "ts" ["cfgA", "cfgB"] _ _
      (List.Perm.refl _),
    by decide⟩

/-! ## Claim C4 -/

/-- Claim C4: in both dispatcher embeddings no reachable state has more
than `N` of this run's jobs in the launched-but-not-completed state, and
a step that launches a new job is only possible from a state where the
count checked against the limit is below `N` — so the (N+1)-th
submission waits. -/
theorem bounded_concurrency :
    (∀ N jobs s, PoolReachable N jobs s → s.running ≤ N)
    ∧ (∀ N s s', PoolStep N s s' → s.running < s'.running →
        s.running < N)
    ∧ (∀ N jobs u s, PollReachable N jobs u s → s.own ≤ N)
    ∧ (∀ N s s', PollStep N s s' → s.own < s'.own →
        s.own + s.unrelated < N) := by
  refine ⟨?_, ?_, ?_, ?_⟩
  · intro N jobs s h
    induction h with
    | init => exact Nat.zero_le N
    | step hre hst ih =>
      cases hst with
      | launch p r f hlt => exact hlt
      | finish p r f => simp only [PoolState.running] at ih ⊢; omega
  · intro N s s' hst hlt
    cases hst with
    | launch p r f h => exact h
    | finish p r f => simp only [PoolState.running] at hlt; omega
  · intro N jobs u s h
    induction h with
    | init => exact Nat.zero_le N
    | step hre hst ih =>
      cases hst with
      | launch q own unrelated h => simp only [PollState.own] at ih ⊢; omega
      | ownExit q own unrelated => simp only [PollState.own] at ih ⊢; omega
      | unrelatedStart q own unrelated => exact ih
      | unrelatedExit q own unrelated => exact ih
  · intro N s s' hst hlt
    cases hst with
    | launch q own unrelated h => exact h
    | ownExit q own unrelated => simp only [PollState.own] at hlt; omega
    | unrelatedStart q own unrelated => simp only [PollState.own] at hlt; omega
    | unrelatedExit q own unrelated => simp only [PollState.own] at hlt; omega

/-- Witness for C4: a pool run with limit 2 after admitting two of three
jobs, and a poll run with limit 1 after one admission, both within
bound. -/
theorem bounded_concurrency_witness :
    ({ pending := 1, running := 2, finished := 0 } : PoolState).running ≤ 2
    ∧ ({ queued := 0, own := 1, unrelated := 0 } : PollState).own ≤ 1 :=
  ⟨bounded_concurrency.1 2 3 _
      (PoolReachable.step (PoolReachable.step PoolReachable.init
        (PoolStep.launch 2 0 0 (by decide))) (PoolStep.launch 1 1 0 (by decide))),
    bounded_concurrency.2.2.1 1 1 1 _
      (PollReachable.step (PollReachable.step PollReachable.init
        (PollStep.unrelatedExit 1 0 0)) (PollStep.launch 0 0 0 (by decide)))⟩

/-! ## Claim C5 -/

/-- Claim C5 names a requirement the code violates: the poll-based
dispatchers derive `running_containers` from `docker ps -q`, which lists
every running container on the host.  With no own job in flight and one
unrelated container, the count is 1 (not the dispatcher's own count 0),
and with limit 1 the dispatcher refuses to launch, though it would admit
on a host without the unrelated container. -/
theorem polling_counts_host_wide :
    running_containers [] ["0a1b2c3d"] = 1
    ∧ running_containers [] ["0a1b2c3d"] ≠ ([] : List String).length
    ∧ admits_new_container 1 [] ["0a1b2c3d"] = false
    ∧ admits_new_container 1 [] [] = true := by decide

/-! ## Claim C6 -/

/-- Claim C6, as stated, is false on the code: `run_container` has no
try/except around `container.logs` or `container.remove` (lines 72-82),
so after `wait` has returned exit code 0 a raising log fetch propagates
and the worker's outcome is that error, not the exit code. -/
theorem log_fetch_failure_discards_exit_code :
    logFetchFailOps.wait = Except.ok 0
    ∧ run_container logFetchFailOps = Except.error "log fetch failed"
    ∧ run_container logFetchFailOps ≠ Except.ok 0 := by decide

/-- Claim C6 (amended): when the builder, start and wait steps succeed
but the log fetch (or, the log fetch succeeding, the removal) raises,
the raise propagates out of the worker: the job's outcome becomes that
error and the already-captured exit code is discarded, rather than the
failure being downgraded to a logged warning. -/
theorem cleanup_failure_fails_job (ops : WorkerOps) (dc : DockerConfig)
    (name : String) (c : Int) (e : String)
    (h1 : ops.docker_config_action = .ok dc)
    (h2 : ops.containers_run = .ok name)
    (h3 : ops.wait = .ok c) :
    (ops.logs = .error e → run_container ops = .error e)
    ∧ (∀ lg, ops.logs = .ok lg → ops.remove = .error e →
        run_container ops = .error e) := by
  constructor
  · intro h4
    simp only [run_container, h1, h2, h3, h4]
    rfl
  · intro lg h4 h5
    simp only [run_container, h1, h2, h3, h4, h5]
    rfl

/-- Witness for the amended C6 at the two concrete failing workers. -/
theorem cleanup_failure_fails_job_witness :
    run_container logFetchFailOps = Except.error "log fetch failed"
    ∧ run_container removeFailOps = Except.error "removal failed" :=
  ⟨(cleanup_failure_fails_job logFetchFailOps
      ⟨"job.log", [("/h", "/c")], ["arg"], "msg"⟩ "container0" 0
      "log fetch failed" rfl rfl rfl).1 rfl,
    (cleanup_failure_fails_job removeFailOps
      ⟨"job.log", [("/h", "/c")], ["arg"], "msg"⟩ "container0" 0
      "removal failed" rfl rfl rfl).2 "captured output" rfl rfl⟩

/-! ## Claim C7 -/

/-- Claim C7, as stated, is false on the code: with job 0's builder
raising and job 1 succeeding, job 1 completes and is recorded, but job
0's failure is only logged — `exit_code_infos` ends as `[("cfgB", 0)]`
with no terminal failure entry for "cfgA". -/
theorem failing_job_not_recorded :
    (dispatch_container "img" "logs" "ts" ["cfgA", "cfgB"]
        (jobOutcomes ["cfgA", "cfgB"]
          fun i => if i = 0 then builderFailOps else okOps 0)).exit_code_infos
      = [("cfgB", 0)]
    ∧ ∀ p ∈ (dispatch_container "img" "logs" "ts" ["cfgA", "cfgB"]
        (jobOutcomes ["cfgA", "cfgB"]
          fun i => if i = 0 then builderFailOps else okOps 0)).exit_code_infos,
        p.1 ≠ "cfgA" := by decide

/-- Claim C7 (amended): an error raised inside job k's worker at or
before container start is caught at the per-job boundary and logged as
that job's exception event (but produces no entry in the result list),
and it never prevents any other job whose worker returned an exit code
from having its result recorded. -/
theorem worker_error_isolated {α : Type} (img dlp ts : String)
    (configs : List α) (ops : Nat → WorkerOps)
    (completed : List (Nat × α × Except String Int))
    (h : completed.Perm (jobOutcomes configs ops))
    (k : Nat) (hk : k < configs.length) (e : String)
    (hke : run_container (ops k) = .error e) :
    Event.jobTerminal k configs[k] (Except.error e)
        ∈ (dispatch_container img dlp ts configs completed).trace
    ∧ ∀ (j : Nat) (hj : j < configs.length) (c : Int),
        run_container (ops j) = .ok c →
        (configs[j], c)
          ∈ (dispatch_container img dlp ts configs completed).exit_code_infos := by
  constructor
  · have hmem : (k, configs[k], run_container (ops k)) ∈ completed :=
      h.mem_iff.mpr (mem_jobOutcomes configs ops k hk)
    have hmap : Event.jobTerminal k configs[k] (Except.error e)
        ∈ completed.map fun fut => Event.jobTerminal fut.1 fut.2.1 fut.2.2 :=
      List.mem_map.mpr ⟨(k, configs[k], run_container (ops k)), hmem, by
        rw [hke]⟩
    simp only [dispatch_container]
    exact List.mem_cons_of_mem _ (List.mem_cons_of_mem _
      (List.mem_append_left _ hmap))
  · intro j hj c hjc
    have hmem : (j, configs[j], run_container (ops j)) ∈ completed :=
      h.mem_iff.mpr (mem_jobOutcomes configs ops j hj)
    simp only [dispatch_container]
    rw [agg_infos_eq]
    refine List.mem_append_right _ (List.mem_filterMap.mpr
      ⟨(j, configs[j], run_container (ops j)), hmem, ?_⟩)
    rw [hjc]
    rfl

/-- Witness for the amended C7: job 0's builder error is logged at the
per-job boundary while job 1's result is recorded. -/
theorem worker_error_isolated_witness :
    Event.jobTerminal 0 "cfgA" (Except.error "builder boom")
        ∈ (dispatch_container "img" "logs" "ts" ["cfgA", "cfgB"]
            (jobOutcomes ["cfgA", "cfgB"]
              fun i => if i = 0 then builderFailOps else okOps 0)).trace
    ∧ (("cfgB" : String), (0 : Int))
        ∈ (dispatch_container "img" "logs" "ts" ["cfgA", "cfgB"]
            (jobOutcomes ["cfgA", "cfgB"]
              fun i => if i = 0 then builderFailOps else okOps 0)).exit_code_infos :=
  ⟨(worker_error_isolated "img" "logs" "ts" ["cfgA", "cfgB"]
      (fun i => if i = 0 then builderFailOps else okOps 0) _
      (List.Perm.refl _) 0 (by decide) "builder boom" rfl).1,
    (worker_error_isolated "img" "logs" "ts" ["cfgA", "cfgB"]
      (fun i => if i = 0 then builderFailOps else okOps 0) _
      (List.Perm.refl _) 0 (by decide) "builder boom" rfl).2
      1 (by decide) 0 rfl⟩

/-! ## Claim C8 -/

/-- Claim C8, as stated, is false on the code: replacing both '/' and
':' with '-' is not injective, so the distinct images "a/b" and "a:b"
sanitize identically and two runs started the same second write to the
same dispatch log file. -/
theorem image_sanitization_collides :
    dispatch_log_file "dispatch-logs" "a/b" "2024-01-01_00-00-00"
      = dispatch_log_file "dispatch-logs" "a:b" "2024-01-01_00-00-00"
    ∧ ("a/b" : String) ≠ "a:b" := by decide

/-- Claim C8 (amended): the dispatch log path is
`<dispatchLogDir>/dispatch_<sanitizedImageName>_<startTimestamp>.log`
with '/' and ':' replaced by '-', and two runs over the same log
directory whose equal-length start timestamps differ never write to the
same file; runs with different images, however, may collide after
sanitization. -/
theorem dispatch_log_file_spec (dir img img' ts ts' : String) :
    dispatch_log_file dir img ts
      = ospJoin dir ("dispatch_" ++ filteredName img ++ "_" ++ ts ++ ".log")
    ∧ (ts.length = ts'.length →
        dispatch_log_file dir img ts = dispatch_log_file dir img' ts' →
        ts = ts') :=
  ⟨rfl, fun hl h => dispatch_log_file_timestamp_inj dir img img' ts ts' hl h⟩

/-- Witness for the amended C8 at concrete paths and timestamps. -/
theorem dispatch_log_file_spec_witness :
    dispatch_log_file "dispatch-logs" "nipy/heudiconv:latest"
        "2024-01-01_00-00-00"
      = ospJoin "dispatch-logs"
          ("dispatch_" ++ filteredName "nipy/heudiconv:latest" ++ "_"
            ++ "2024-01-01_00-00-00" ++ ".log")
    ∧ ("2024-01-01_00-00-00" : String) = "2024-01-01_00-00-00" :=
  ⟨(dispatch_log_file_spec "dispatch-logs" "nipy/heudiconv:latest"
      "nipy/heudiconv:latest" "2024-01-01_00-00-00" "2024-01-01_00-00-00").1,
    (dispatch_log_file_spec "dispatch-logs" "nipy/heudiconv:latest"
      "nipy/heudiconv:latest" "2024-01-01_00-00-00" "2024-01-01_00-00-00").2
      rfl rfl⟩

/-! ## Claim C9 -/

/-- Claim C9, as stated, is false on the cited fmriprep dispatcher: with
one subject and limit 1, the main thread launches the container and then
immediately writes the closing report of line 201, reaching a state
where the report is out while the launched container is still running —
its `wait_container` thread still blocked in `docker wait`, the job not
yet terminal. -/
theorem fmriprep_reports_while_running :
    FmriprepReachable 1 1 0
      { queued := 0, own := 1, unrelated := 0, reported := true }
    ∧ ({ queued := 0, own := 1, unrelated := 0, reported := true }
        : FmriprepState).own ≠ 0 :=
  ⟨FmriprepReachable.step (FmriprepReachable.step FmriprepReachable.init
      (FmriprepStep.launch 0 0 0 (by decide)))
      (FmriprepStep.closingReport 1 0),
    by decide⟩

/-- Claim C9 (amended): in `dispatch_container` the closing report
carrying the histogram and result list is the last event of the dispatch
trace, and every submitted job has a terminal processing event strictly
before it; the poll-based fmriprep dispatcher, by contrast, can write
its closing report while containers it launched are still running. -/
theorem summary_after_all_terminal {α : Type} (img dlp ts : String)
    (configs : List α) (ops : Nat → WorkerOps)
    (completed : List (Nat × α × Except String Int))
    (h : completed.Perm (jobOutcomes configs ops)) :
    ∃ pre, (dispatch_container img dlp ts configs completed).trace
        = pre ++ [Event.finalReport
            (dispatch_container img dlp ts configs completed).exit_code_infos
            (dispatch_container img dlp ts configs completed).exit_code_counter]
      ∧ ∀ (i : Nat) (hi : i < configs.length),
          ∃ o, Event.jobTerminal i configs[i] o ∈ pre := by
  refine ⟨Event.startDispatch img configs.length :: Event.allSubmitted ::
    (completed.map fun fut => Event.jobTerminal fut.1 fut.2.1 fut.2.2),
    by simp only [dispatch_container, List.cons_append], ?_⟩
  intro i hi
  refine ⟨run_container (ops i), ?_⟩
  have hmem : (i, configs[i], run_container (ops i)) ∈ completed :=
    h.mem_iff.mpr (mem_jobOutcomes configs ops i hi)
  exact List.mem_cons_of_mem _ (List.mem_cons_of_mem _
    (List.mem_map.mpr ⟨_, hmem, rfl⟩))

/-- Witness for C9 at a one-job run whose container exits 0. -/
theorem summary_after_all_terminal_witness :
    (∃ pre, (dispatch_container "img" "logs" "ts" ["cfgA"]
        (jobOutcomes ["cfgA"] fun _ => okOps 0)).trace
        = pre ++ [Event.finalReport
            (dispatch_container "img" "logs" "ts" ["cfgA"]
              (jobOutcomes ["cfgA"] fun _ => okOps 0)).exit_code_infos
            (dispatch_container "img" "logs" "ts" ["cfgA"]
              (jobOutcomes ["cfgA"] fun _ => okOps 0)).exit_code_counter]
      ∧ ∀ (i : Nat) (hi : i < (["cfgA"] : List String).length),
          ∃ o, Event.jobTerminal i (["cfgA"] : List String)[i] o ∈ pre)
    ∧ (dispatch_container "img" "logs" "ts" ["cfgA"]
        (jobOutcomes ["cfgA"] fun _ => okOps 0)).trace.length = 4 :=
  ⟨summary_after_all_terminal "img" "logs" "ts" ["cfgA"] (fun _ => okOps 0)
      _ (List.Perm.refl _),
    by decide⟩

/-! ## Claim C10 -/

/-- Claim C10: the call of `dispatch_container` in `heudiconv_main`
passes the keyword argument "interval", which names no parameter of
`dispatch_container`, so CPython call binding raises `TypeError` before
the dispatcher body runs and the heudiconv path never launches a
container. -/
theorem heudiconv_dispatch_call_rejected :
    call_binds dispatch_container_params heudiconv_dispatch_kwargs = false
    ∧ unexpected_kwargs dispatch_container_params heudiconv_dispatch_kwargs
      = ["interval"] := by decide

end FmriPreproc
